import Mathlib

/-!
Verification of the claims of the specification against a shallow embedding of
the repository's source (a TURN allocation, crates/turn/src/allocation/mod.rs,
and the ICE agent selector, crates/ice/src/agent/agent_selector.rs).

Machine integers are modelled as Nat; HashMaps as association lists; timers as
an active flag plus an explicit deadline; the async select loop of the
allocation lifetime task as a step function over an explicit event list.
-/

namespace Turn

/-- A socket address: ip and port. The ip is modelled as a Nat (the Rust code
only uses its string form as a map fingerprint, which is injective on ips and
ignores the port, exactly like this projection). -/
structure Addr where
  ip : Nat
  port : Nat
deriving DecidableEq, Repr

/-- addr2ipfingerprint: the Rust code keys the permissions map by
addr.ip().to_string(); only the ip component of the address. -/
def addr2ipfingerprint (addr : Addr) : Nat :=
  addr.ip

/-- Modelled from the spec: Permission (permission.rs is not under src/).
A per-peer-ip entry with an expiry timer; the timer is modelled by an active
flag (spec section 4.5: add installs and starts the expiry timer; close stops
it; refresh resets its deadline, which we do not track). -/
structure Permission where
  addr : Addr
  timerActive : Bool
deriving DecidableEq, Repr

/-- Permission::new — a fresh permission whose timer is not yet started. -/
def Permission.new (addr : Addr) : Permission :=
  { addr := addr, timerActive := false }

/-- Modelled from the spec: ChannelBind (channel_bind.rs is not under src/).
A number-to-peer binding with an expiry timer modelled as an active flag. -/
structure ChannelBind where
  number : Nat
  peer : Addr
  timerActive : Bool
deriving DecidableEq, Repr

/-- ChannelBind::new — a fresh bind whose timer is not yet started. -/
def ChannelBind.new (number : Nat) (peer : Addr) : ChannelBind :=
  { number := number, peer := peer, timerActive := false }

/-- The error returned by add_channel_bind on a colliding bind. -/
inductive TurnError
  | sameChannelDifferentPeer
deriving DecidableEq, Repr

/-- Result of a fallible allocation operation. -/
inductive TurnResult
  | ok
  | err (e : TurnError)
deriving DecidableEq, Repr

/-- Association-list lookup by key (HashMap::get). -/
def alLookup {β : Type} (l : List (Nat × β)) (k : Nat) : Option β :=
  (l.find? (fun e => decide (e.1 = k))).map (fun e => e.2)

/-- Association-list insert (HashMap::insert); replaces an existing key. -/
def alInsert {β : Type} (l : List (Nat × β)) (k : Nat) (v : β) : List (Nat × β) :=
  match l with
  | [] => [(k, v)]
  | e :: rest => if e.1 = k then (k, v) :: rest else e :: alInsert rest k v

/-- Association-list erase (HashMap::remove, dropping the returned value). -/
def alErase {β : Type} (l : List (Nat × β)) (k : Nat) : List (Nat × β) :=
  match l with
  | [] => []
  | e :: rest => if e.1 = k then rest else e :: alErase rest k

/-- The Allocation state: permissions keyed by ip fingerprint, channel bindings
keyed by channel number, the optional manager registry handle (a set of
five-tuple fingerprints), the reset sender (present iff reset_tx.is_some()),
the timer_expired atomic and the closed flag. -/
structure Allocation where
  fiveTuple : String
  permissions : List (Nat × Permission)
  channel_bindings : List (Nat × ChannelBind)
  allocations : Option (List String)
  resetTx : Bool
  timer_expired : Bool
  closed : Bool
deriving DecidableEq, Repr

/-- Allocation::new — empty maps, no registry handle, no reset sender. -/
def Allocation.new (fiveTuple : String) : Allocation :=
  { fiveTuple := fiveTuple
    permissions := []
    channel_bindings := []
    allocations := none
    resetTx := false
    timer_expired := false
    closed := false }

/-- Allocation::has_permission — whether a permission keyed by the address's ip
fingerprint is present. -/
def has_permission (addr : Addr) (s : Allocation) : Bool :=
  (alLookup s.permissions (addr2ipfingerprint addr)).isSome

/-- Allocation::add_permission — if a permission with the same fingerprint
exists, refresh its timer (deadline not tracked) and drop the argument;
otherwise start the argument's timer and insert it. -/
def add_permission (p : Permission) (s : Allocation) : Allocation :=
  let fingerprint := addr2ipfingerprint p.addr
  match alLookup s.permissions fingerprint with
  | some _ => s
  | none =>
      { s with permissions :=
          alInsert s.permissions fingerprint { p with timerActive := true } }

/-- Allocation::remove_permission — remove by fingerprint, reporting presence. -/
def remove_permission (addr : Addr) (s : Allocation) : Bool × Allocation :=
  ((alLookup s.permissions (addr2ipfingerprint addr)).isSome,
   { s with permissions := alErase s.permissions (addr2ipfingerprint addr) })

/-- Allocation::get_channel_addr — the peer of the bind stored under a number. -/
def get_channel_addr (number : Nat) (s : Allocation) : Option Addr :=
  (alLookup s.channel_bindings number).map (fun cb => cb.peer)

/-- Allocation::get_channel_number — scan the binds for one whose peer equals
the address and return its number. -/
def get_channel_number (addr : Addr) (s : Allocation) : Option Nat :=
  (s.channel_bindings.find? (fun e => decide (e.2.peer = addr))).map
    (fun e => e.2.number)

/-- The two early-return collision checks of Allocation::add_channel_bind: an
existing bind under this number with a different peer, or an existing bind for
this peer with a different number (both checks only read the table). -/
def channel_collision (c : ChannelBind) (s : Allocation) : Bool :=
  (match get_channel_addr c.number s with
   | some addr => decide (addr ≠ c.peer)
   | none => false) ||
  (match get_channel_number c.peer s with
   | some number => decide (number ≠ c.number)
   | none => false)

/-- The Ok path of Allocation::add_channel_bind: refresh an existing bind under
this number (its timer deadline is not tracked) or install a fresh started
bind, and in both cases add/refresh the permission for the stored peer's ip. -/
def add_channel_bind_ok (c : ChannelBind) (s : Allocation) : Allocation :=
  match alLookup s.channel_bindings c.number with
  | some cb => add_permission (Permission.new cb.peer) s
  | none =>
      add_permission (Permission.new c.peer)
        { s with channel_bindings :=
            alInsert s.channel_bindings c.number { c with timerActive := true } }

/-- Allocation::add_channel_bind — reject a collision (same number, different
peer, or same peer, different number) leaving the state untouched; otherwise
refresh or install the bind and the permission for its peer. -/
def add_channel_bind (c : ChannelBind) (lifetime : Nat) (s : Allocation) :
    TurnResult × Allocation :=
  if channel_collision c s then
    (TurnResult.err TurnError.sameChannelDifferentPeer, s)
  else (TurnResult.ok, add_channel_bind_ok c s)

/-- Allocation::remove_channel_bind — remove by number, reporting presence. -/
def remove_channel_bind (number : Nat) (s : Allocation) : Bool × Allocation :=
  ((alLookup s.channel_bindings number).isSome,
   { s with channel_bindings := alErase s.channel_bindings number })

/-- Allocation::stop — report whether the timer already expired or there was no
sender, and drop the reset sender. -/
def stop (s : Allocation) : Bool × Allocation :=
  ((!s.resetTx) || s.timer_expired, { s with resetTx := false })

/-- Allocation::close, state component — early return when already closed;
otherwise set closed, drop the reset sender (stop), and stop every permission
timer and every channel-bind timer. -/
def closeState (s : Allocation) : Allocation :=
  if s.closed then s
  else
    let s1 := { s with closed := true }
    let s2 := (stop s1).2
    { s2 with
      permissions :=
        s2.permissions.map (fun e => (e.1, { e.2 with timerActive := false }))
      channel_bindings :=
        s2.channel_bindings.map (fun e => (e.1, { e.2 with timerActive := false })) }

/-- Allocation::close — always returns Ok. -/
def close (s : Allocation) : TurnResult × Allocation :=
  (TurnResult.ok, closeState s)

/-! The background task spawned by Allocation::start(lifetime): a select loop
over the sleep timer and the reset channel, embedded as a step function over an
explicit list of select events. After the loop exits (either branch sets done),
the task stores true into timer_expired. -/

/-- One event delivered to the lifetime task's select loop: the timer elapses,
a new lifetime d is received at time now, or the control channel closes. -/
inductive TimerEvent
  | elapsed
  | reset (now : Nat) (d : Nat)
  | chanClosed
deriving DecidableEq, Repr

/-- The lifetime task's loop state: the timer deadline, the captured optional
manager registry (a set of five-tuple fingerprints), and the loop flag. -/
structure TimerTaskState where
  deadline : Nat
  registry : Option (List String)
  done : Bool
deriving DecidableEq, Repr

/-- One iteration of the select loop of Allocation::start: on timer elapse,
remove the five-tuple fingerprint from the registry (when one is held) and
leave the loop; on a received lifetime, reset the deadline to now + d and keep
waiting; on a closed control channel, leave the loop. -/
def timerTaskStep (fiveTuple : String) (s : TimerTaskState) (e : TimerEvent) :
    TimerTaskState :=
  if s.done then s
  else
    match e with
    | TimerEvent.elapsed =>
        { s with registry := s.registry.map (fun l => l.erase fiveTuple)
                 done := true }
    | TimerEvent.reset now d => { s with deadline := now + d }
    | TimerEvent.chanClosed => { s with done := true }

/-- The observable outcome of a possibly incomplete run of the lifetime task:
the loop
state, and whether timer_expired was stored (which the code does exactly when
the loop has exited). -/
structure TimerTaskResult where
  finalState : TimerTaskState
  timerExpiredStored : Bool
deriving DecidableEq, Repr

/-- Run the lifetime task over a list of select events; the store into
timer_expired happens after the loop, on both exit branches. -/
def runTimerTask (fiveTuple : String) (s0 : TimerTaskState)
    (events : List TimerEvent) : TimerTaskResult :=
  let s := events.foldl (timerTaskStep fiveTuple) s0
  { finalState := s, timerExpiredStored := s.done }

/-- Well-formedness of the channel-binding table, maintained by the allocation:
every entry is stored under its own number, numbers are unique (a HashMap
keyed by number), and no two entries share a peer. -/
def ChannelBindingsWF (l : List (Nat × ChannelBind)) : Prop :=
  (∀ e ∈ l, e.2.number = e.1)
    ∧ (l.map Prod.fst).Nodup
    ∧ l.Pairwise (fun a b => a.2.peer ≠ b.2.peer)

end Turn

namespace Ice

/-- A socket address (ip, port); lexicographic order on the pair is the
tie-break for pair priorities. -/
structure Addr where
  ip : Nat
  port : Nat
deriving DecidableEq, Repr

/-- candidate_type() of a candidate. -/
inductive CandidateType
  | host
  | serverReflexive
  | peerReflexive
  | relay
  | unspecified
deriving DecidableEq, Repr

/-- A candidate: type, priority and transport address. -/
structure Candidate where
  ctype : CandidateType
  priority : Nat
  addr : Addr
deriving DecidableEq, Repr

/-- CandidatePairState (stored as an atomic u8 in the source). -/
inductive PairState
  | waiting
  | inProgress
  | succeeded
  | failed
  | frozen
deriving DecidableEq, Repr

/-- A candidate pair held by the registry: the (local, remote) candidates, the
atomic state, and the atomic nominated flag. -/
structure PairRec where
  localCand : Candidate
  remoteCand : Candidate
  state : PairState
  nominated : Bool
deriving DecidableEq, Repr

/-- An outstanding STUN binding request: transaction id, destination, and
whether the request carried USE-CANDIDATE. -/
structure PendingRequest where
  transactionId : Nat
  destination : Addr
  isUseCandidate : Bool
deriving DecidableEq, Repr

/-- Static agent configuration: the per-candidate-type acceptance waits used by
is_nominatable, and the lite flag. -/
structure AgentConfig where
  hostAcceptanceMinWait : Nat
  srflxAcceptanceMinWait : Nat
  prflxAcceptanceMinWait : Nat
  relayAcceptanceMinWait : Nat
  lite : Bool
deriving DecidableEq, Repr

/-- The mutable agent-internal state touched by the selector: the candidate
pair checklist, the selected pair and the controlling role's nominated pair
(each identified by its (local, remote) candidate key), the transaction table,
a fresh transaction-id counter, and start_time. -/
structure AgentState where
  checklist : List PairRec
  selectedPair : Option (Candidate × Candidate)
  nominatedPair : Option (Candidate × Candidate)
  pendingRequests : List PendingRequest
  nextTid : Nat
  startTime : Nat
deriving DecidableEq, Repr

/-- Observable actions emitted by a selector operation. -/
inductive Action
  | keepalive
  | nominatingRequest (localCand remoteCand : Candidate)
  | bindingRequest (localCand remoteCand : Candidate)
  | bindingSuccess (localCand remoteCand : Candidate)
deriving DecidableEq, Repr

/-- AgentInternal::is_nominatable — the elapsed time since start must exceed
the configured per-type acceptance wait; an unspecified type never is. -/
def is_nominatable (cfg : AgentConfig) (now startTime : Nat) (c : Candidate) :
    Bool :=
  match c.ctype with
  | CandidateType.host => decide (now - startTime > cfg.hostAcceptanceMinWait)
  | CandidateType.serverReflexive =>
      decide (now - startTime > cfg.srflxAcceptanceMinWait)
  | CandidateType.peerReflexive =>
      decide (now - startTime > cfg.prflxAcceptanceMinWait)
  | CandidateType.relay => decide (now - startTime > cfg.relayAcceptanceMinWait)
  | CandidateType.unspecified => false

/-- find_pair — the registry entry for these (local, remote) candidates. -/
def find_pair (localCand remoteCand : Candidate) (s : AgentState) :
    Option PairRec :=
  s.checklist.find?
    (fun p => decide (p.localCand = localCand ∧ p.remoteCand = remoteCand))

/-- Modelled from the spec: add_pair (a registry accessor of agent_internal,
not under src/) — add a fresh pair for the candidates; a pair created on an
inbound binding request starts unnominated in the Waiting state. -/
def add_pair (localCand remoteCand : Candidate) (s : AgentState) : AgentState :=
  { s with checklist :=
      s.checklist ++
        [{ localCand := localCand, remoteCand := remoteCand
           state := PairState.waiting, nominated := false }] }

/-- Store a new state into the atomic state of every registry entry matching
the (local, remote) key. -/
def set_pair_state (localCand remoteCand : Candidate) (st : PairState)
    (s : AgentState) : AgentState :=
  { s with checklist :=
      s.checklist.map (fun p =>
        if p.localCand = localCand ∧ p.remoteCand = remoteCand then
          { p with state := st }
        else p) }

/-- Store true into the atomic nominated flag of every registry entry matching
the (local, remote) key. -/
def set_nominated_flag (localCand remoteCand : Candidate) (s : AgentState) :
    AgentState :=
  { s with checklist :=
      s.checklist.map (fun p =>
        if p.localCand = localCand ∧ p.remoteCand = remoteCand then
          { p with nominated := true }
        else p) }

/-- Modelled from the spec: set_selected_pair (agent_conn accessor, not under
src/) — store the pair as the selected pair. -/
def set_selected_pair (k : Candidate × Candidate) (s : AgentState) : AgentState :=
  { s with selectedPair := some k }

/-- Modelled from the spec: consume of the STUN transaction table
(handle_inbound_binding_success of agent_internal, not under src/) — remove and
return the pending request with the given transaction id. -/
def consume (tid : Nat) : List PendingRequest →
    Option PendingRequest × List PendingRequest
  | [] => (none, [])
  | pr :: rest =>
      if pr.transactionId = tid then (some pr, rest)
      else
        let r := consume tid rest
        (r.1, pr :: r.2)

/-- Modelled from the spec: send_binding_request (agent_internal, not under
src/) — enqueue the message for transmission and register the transaction in
the table, recording its destination and whether it carried USE-CANDIDATE. -/
def send_binding_request (dest : Addr) (useCandidate : Bool) (s : AgentState) :
    AgentState :=
  { s with
    pendingRequests :=
      s.pendingRequests ++
        [{ transactionId := s.nextTid, destination := dest
           isUseCandidate := useCandidate }]
    nextTid := s.nextTid + 1 }

/-- The standard ICE pair priority: with g the controlling-side and d the
controlled-side candidate priority, min g d * 2^32 + max g d * 2 + (g > d). -/
def pair_priority (isControlling : Bool) (p : PairRec) : Nat :=
  let g := if isControlling then p.localCand.priority else p.remoteCand.priority
  let d := if isControlling then p.remoteCand.priority else p.localCand.priority
  min g d * 2 ^ 32 + max g d * 2 + (if g > d then 1 else 0)

/-- Lexicographic order on remote addresses, the registry's priority
tie-break. -/
def addr_less (a b : Addr) : Bool :=
  decide (a.ip < b.ip) || (decide (a.ip = b.ip) && decide (a.port < b.port))

/-- Whether pair a beats pair b in the registry's ordering: strictly higher
pair priority, or equal priority with the lexicographically smaller remote
address. -/
def better_pair (isControlling : Bool) (a b : PairRec) : Bool :=
  decide (pair_priority isControlling a > pair_priority isControlling b) ||
    (decide (pair_priority isControlling a = pair_priority isControlling b) &&
      addr_less a.remoteCand.addr b.remoteCand.addr)

/-- Pick the best pair of a list under better_pair. -/
def pick_best (isControlling : Bool) (l : List PairRec) : Option PairRec :=
  l.foldl
    (fun acc p =>
      match acc with
      | none => some p
      | some q => if better_pair isControlling p q then some p else some q)
    none

/-- Modelled from the spec: get_best_valid_candidate_pair (registry accessor,
not under src/) — the best pair among those in the Succeeded state. -/
def get_best_valid_candidate_pair (isControlling : Bool) (s : AgentState) :
    Option PairRec :=
  pick_best isControlling
    (s.checklist.filter (fun p => decide (p.state = PairState.succeeded)))

/-- Modelled from the spec: get_best_available_candidate_pair (registry
accessor, not under src/) — the best pair among those not Failed. -/
def get_best_available_candidate_pair (isControlling : Bool) (s : AgentState) :
    Option PairRec :=
  pick_best isControlling
    (s.checklist.filter (fun p => decide (p.state ≠ PairState.failed)))

/-- AgentInternal::nominate_pair — when a nominated pair is recorded, build a
Binding Request carrying USE-CANDIDATE (the build of the attribute set is
modelled as always succeeding) and send it to that pair, registering the
transaction. -/
def nominate_pair (s : AgentState) : AgentState × List Action :=
  match s.nominatedPair with
  | some k =>
      (send_binding_request k.2.addr true s, [Action.nominatingRequest k.1 k.2])
  | none => (s, [])

/-- ControllingSelector::ping_candidate and ControlledSelector::ping_candidate
— build a non-nominating Binding Request (build modelled as always succeeding)
and send it, registering the transaction. -/
def ping_candidate (localCand remoteCand : Candidate) (s : AgentState) :
    AgentState × List Action :=
  (send_binding_request remoteCand.addr false s,
   [Action.bindingRequest localCand remoteCand])

/-- Modelled from the spec: ping_all_candidates (agent_internal, not under
src/) — send a non-nominating binding request to every pair; the priority
ordering of the sweep is not modelled (the sweep visits the checklist in list
order). -/
def ping_all_candidates (s : AgentState) : AgentState × List Action :=
  s.checklist.foldl
    (fun acc p =>
      let next := ping_candidate p.localCand p.remoteCand acc.1
      (next.1, acc.2 ++ next.2))
    (s, [])

/-- ControllingSelector::start — reset start_time and clear nominated_pair. -/
def controlling_start (now : Nat) (s : AgentState) : AgentState :=
  { s with startTime := now, nominatedPair := none }

/-- ControllingSelector::contact_candidates — keepalive when a pair is selected
and still valid; else renominate a recorded nominated pair; else nominate the
best valid pair when both its endpoints are nominatable; else ping all pairs.
validateOk is the collaborator answer of validate_selected_pair. -/
def controlling_contact_candidates (cfg : AgentConfig) (now : Nat)
    (validateOk : Bool) (s : AgentState) : AgentState × List Action :=
  if s.selectedPair.isSome then
    if validateOk then (s, [Action.keepalive]) else (s, [])
  else if s.nominatedPair.isSome then nominate_pair s
  else
    let hasNominatedPair :=
      match get_best_valid_candidate_pair true s with
      | some p =>
          is_nominatable cfg now s.startTime p.localCand &&
            is_nominatable cfg now s.startTime p.remoteCand
      | none => false
    if hasNominatedPair then
      let s1 :=
        match get_best_valid_candidate_pair true s with
        | some p =>
            { set_nominated_flag p.localCand p.remoteCand s with
              nominatedPair := some (p.localCand, p.remoteCand) }
        | none => s
      nominate_pair s1
    else ping_all_candidates s

/-- ControllingSelector::handle_success_response — consume the transaction;
discard on unknown id or on a symmetric-NAT source mismatch; otherwise mark the
pair Succeeded and, when the request carried USE-CANDIDATE and no pair was
selected, select it. -/
def controlling_handle_success_response (tid : Nat)
    (localCand remoteCand : Candidate) (remoteAddr : Addr) (s : AgentState) :
    AgentState × List Action :=
  match (consume tid s.pendingRequests).1 with
  | none => (s, [])
  | some pendingRequest =>
      let s1 := { s with pendingRequests := (consume tid s.pendingRequests).2 }
      if pendingRequest.destination ≠ remoteAddr then (s1, [])
      else
        let selectedPairIsNone := s1.selectedPair.isNone
        match find_pair localCand remoteCand s1 with
        | some _ =>
            let s2 := set_pair_state localCand remoteCand PairState.succeeded s1
            if pendingRequest.isUseCandidate && selectedPairIsNone then
              (set_selected_pair (localCand, remoteCand) s2, [])
            else (s2, [])
        | none => (s1, [])

/-- ControllingSelector::handle_binding_request — reply with a Binding Success;
for a known Succeeded pair with no nominated and no selected pair that equals
the registry's best available pair and has both endpoints nominatable, record
it as nominated and send the nominating request; an unknown pair is added. -/
def controlling_handle_binding_request (cfg : AgentConfig) (now : Nat)
    (localCand remoteCand : Candidate) (s : AgentState) :
    AgentState × List Action :=
  let replied := [Action.bindingSuccess localCand remoteCand]
  match find_pair localCand remoteCand s with
  | some p =>
      if p.state = PairState.succeeded ∧ s.nominatedPair.isNone ∧
          s.selectedPair.isNone then
        match get_best_available_candidate_pair true s with
        | some bestPair =>
            if bestPair = p ∧
                is_nominatable cfg now s.startTime p.localCand = true ∧
                is_nominatable cfg now s.startTime p.remoteCand = true then
              let s1 :=
                { s with nominatedPair := some (p.localCand, p.remoteCand) }
              let next := nominate_pair s1
              (next.1, replied ++ next.2)
            else (s, replied)
        | none => (s, replied)
      else (s, replied)
  | none => (add_pair localCand remoteCand s, replied)

/-- ControlledSelector::contact_candidates — lite agents only validate; else
keepalive when a pair is selected and still valid; else ping all pairs. -/
def controlled_contact_candidates (cfg : AgentConfig) (validateOk : Bool)
    (s : AgentState) : AgentState × List Action :=
  if cfg.lite then (s, [])
  else if s.selectedPair.isSome then
    if validateOk then (s, [Action.keepalive]) else (s, [])
  else ping_all_candidates s

/-- ControlledSelector::handle_success_response — the same consume and
symmetric-NAT discard as the controlling role; on a match mark the pair
Succeeded; the controlled role never selects here. -/
def controlled_handle_success_response (tid : Nat)
    (localCand remoteCand : Candidate) (remoteAddr : Addr) (s : AgentState) :
    AgentState × List Action :=
  match (consume tid s.pendingRequests).1 with
  | none => (s, [])
  | some pendingRequest =>
      let s1 := { s with pendingRequests := (consume tid s.pendingRequests).2 }
      if pendingRequest.destination ≠ remoteAddr then (s1, [])
      else
        match find_pair localCand remoteCand s1 with
        | some _ =>
            (set_pair_state localCand remoteCand PairState.succeeded s1, [])
        | none => (s1, [])

/-- ControlledSelector::handle_binding_request — add an unknown pair; with
USE-CANDIDATE, select a Succeeded pair when none is selected and reply with a
Binding Success, or ping a not-yet-Succeeded pair; without USE-CANDIDATE,
reply and ping. -/
def controlled_handle_binding_known (useCandidate : Bool)
    (localCand remoteCand : Candidate) (s0 : AgentState) :
    AgentState × List Action :=
  match find_pair localCand remoteCand s0 with
  | some p =>
      if useCandidate then
        if p.state = PairState.succeeded then
          let s1 :=
            if s0.selectedPair.isNone then
              set_selected_pair (localCand, remoteCand) s0
            else s0
          (s1, [Action.bindingSuccess localCand remoteCand])
        else ping_candidate localCand remoteCand s0
      else
        let next := ping_candidate localCand remoteCand s0
        (next.1, Action.bindingSuccess localCand remoteCand :: next.2)
  | none => (s0, [])

/-- ControlledSelector::handle_binding_request — add an unknown pair first,
then dispatch on the now-known pair. -/
def controlled_handle_binding_request (useCandidate : Bool)
    (localCand remoteCand : Candidate) (s : AgentState) :
    AgentState × List Action :=
  let s0 :=
    if (find_pair localCand remoteCand s).isNone then
      add_pair localCand remoteCand s
    else s
  controlled_handle_binding_known useCandidate localCand remoteCand s0

/-- One selector operation, tagged by role, for reasoning about operation
sequences. -/
inductive SelOp
  | controllingStart (now : Nat)
  | controlledStart
  | controllingContact (now : Nat) (validateOk : Bool)
  | controlledContact (validateOk : Bool)
  | controllingPing (localCand remoteCand : Candidate)
  | controlledPing (localCand remoteCand : Candidate)
  | controllingSuccess (tid : Nat) (localCand remoteCand : Candidate)
      (remoteAddr : Addr)
  | controlledSuccess (tid : Nat) (localCand remoteCand : Candidate)
      (remoteAddr : Addr)
  | controllingBinding (now : Nat) (localCand remoteCand : Candidate)
  | controlledBinding (useCandidate : Bool) (localCand remoteCand : Candidate)
deriving DecidableEq, Repr

/-- Apply one selector operation to the agent state. -/
def apply_op (cfg : AgentConfig) (s : AgentState) : SelOp → AgentState
  | SelOp.controllingStart now => controlling_start now s
  | SelOp.controlledStart => s
  | SelOp.controllingContact now validateOk =>
      (controlling_contact_candidates cfg now validateOk s).1
  | SelOp.controlledContact validateOk =>
      (controlled_contact_candidates cfg validateOk s).1
  | SelOp.controllingPing localCand remoteCand =>
      (ping_candidate localCand remoteCand s).1
  | SelOp.controlledPing localCand remoteCand =>
      (ping_candidate localCand remoteCand s).1
  | SelOp.controllingSuccess tid localCand remoteCand remoteAddr =>
      (controlling_handle_success_response tid localCand remoteCand remoteAddr
        s).1
  | SelOp.controlledSuccess tid localCand remoteCand remoteAddr =>
      (controlled_handle_success_response tid localCand remoteCand remoteAddr
        s).1
  | SelOp.controllingBinding now localCand remoteCand =>
      (controlling_handle_binding_request cfg now localCand remoteCand s).1
  | SelOp.controlledBinding useCandidate localCand remoteCand =>
      (controlled_handle_binding_request useCandidate localCand remoteCand s).1

/-- Apply a sequence of selector operations, left to right. -/
def run_ops (cfg : AgentConfig) (s : AgentState) (ops : List SelOp) : AgentState :=
  ops.foldl (apply_op cfg) s

end Ice

namespace Turn

theorem alLookup_alInsert_self {β : Type} (l : List (Nat × β)) (k : Nat) (v : β) :
    alLookup (alInsert l k v) k = some v := by
  induction l with
  | nil => simp [alInsert, alLookup]
  | cons e rest ih =>
      by_cases h : e.1 = k
      · simp [alInsert, h, alLookup]
      · simp [alInsert, h, alLookup, List.find?] at ih ⊢
        exact ih

theorem alLookup_map {β γ : Type} (g : β → γ) (l : List (Nat × β)) (k : Nat) :
    alLookup (l.map (fun e => (e.1, g e.2))) k = (alLookup l k).map g := by
  induction l with
  | nil => rfl
  | cons e rest ih =>
      by_cases h : e.1 = k
      · simp [alLookup, List.find?, h]
      · simp only [List.map_cons]
        simp [alLookup, List.find?, h] at ih ⊢
        exact ih

theorem alLookup_stop_perm (l : List (Nat × Permission)) (k : Nat) :
    alLookup (l.map (fun e => (e.1, { e.2 with timerActive := false }))) k
      = (alLookup l k).map (fun q => { q with timerActive := false }) :=
  alLookup_map (fun q => { q with timerActive := false }) l k

theorem alLookup_stop_bind (l : List (Nat × ChannelBind)) (k : Nat) :
    alLookup (l.map (fun e => (e.1, { e.2 with timerActive := false }))) k
      = (alLookup l k).map (fun q => { q with timerActive := false }) :=
  alLookup_map (fun q => { q with timerActive := false }) l k

theorem mem_of_alLookup_eq_some {β : Type} {l : List (Nat × β)} {k : Nat}
    {v : β} (h : alLookup l k = some v) : (k, v) ∈ l := by
  unfold alLookup at h
  cases hf : l.find? (fun e => decide (e.1 = k)) with
  | none => rw [hf] at h; simp at h
  | some e =>
      rw [hf] at h
      simp at h
      have hk : e.1 = k := by
        have := List.find?_some hf
        simpa using this
      have hm : e ∈ l := List.mem_of_find?_eq_some hf
      have : (k, v) = e := by
        cases e with
        | mk a b => simp_all
      rw [this]
      exact hm

theorem alLookup_eq_some_of_mem {β : Type} {l : List (Nat × β)} {k : Nat}
    {v : β} (hnd : (l.map Prod.fst).Nodup) (hm : (k, v) ∈ l) :
    alLookup l k = some v := by
  induction l with
  | nil => cases hm
  | cons e rest ih =>
      simp only [List.map_cons, List.nodup_cons] at hnd
      rcases List.mem_cons.mp hm with he | ht
      · rw [← he]
        simp [alLookup, List.find?]
      · have hk : e.1 ≠ k := by
          intro hek
          exact hnd.1 (hek ▸ (List.mem_map.mpr ⟨(k, v), ht, rfl⟩))
        simp [alLookup, List.find?, hk]
        have := ih hnd.2 ht
        simpa [alLookup] using this

theorem find?_exists_of_mem {α : Type} {p : α → Bool} {l : List α} {a : α}
    (ha : a ∈ l) (hp : p a = true) : ∃ b, l.find? p = some b := by
  induction l with
  | nil => cases ha
  | cons e rest ih =>
      by_cases he : p e = true
      · exact ⟨e, by simp [List.find?, he]⟩
      · rcases List.mem_cons.mp ha with h1 | h2
        · rw [← h1] at he; exact absurd hp he
        · rcases ih h2 with ⟨b, hb⟩
          refine ⟨b, ?_⟩
          simp [List.find?, he]
          exact hb

theorem closeState_closed (s : Allocation) : (closeState s).closed = true := by
  unfold closeState
  split
  · assumption
  · rfl

theorem closeState_of_closed (s : Allocation) (h : s.closed = true) :
    closeState s = s := by
  simp [closeState, h]

theorem closeState_idem (s : Allocation) :
    closeState (closeState s) = closeState s :=
  closeState_of_closed _ (closeState_closed s)

theorem closeState_iterate (s : Allocation) (n : Nat) (hn : 1 ≤ n) :
    closeState^[n] s = closeState s := by
  obtain ⟨m, rfl⟩ := Nat.exists_eq_add_of_le hn
  clear hn
  induction m with
  | zero => rfl
  | succ m ih =>
      have : 1 + (m + 1) = (1 + m) + 1 := by omega
      rw [this, Function.iterate_succ_apply', ih, closeState_idem]

theorem add_permission_set_closed (p : Permission) (s : Allocation) :
    add_permission p { s with closed := true }
      = { add_permission p s with closed := true } := by
  unfold add_permission
  cases h : alLookup s.permissions (addr2ipfingerprint p.addr) with
  | some q => simp [h]
  | none => simp [h]

theorem channel_collision_set_closed (c : ChannelBind) (s : Allocation) :
    channel_collision c { s with closed := true } = channel_collision c s :=
  rfl

theorem add_channel_bind_ok_set_closed (c : ChannelBind) (s : Allocation) :
    add_channel_bind_ok c { s with closed := true }
      = { add_channel_bind_ok c s with closed := true } := by
  unfold add_channel_bind_ok
  have hal : alLookup ({ s with closed := true } : Allocation).channel_bindings
        c.number
      = alLookup s.channel_bindings c.number := rfl
  rw [hal]
  cases h3 : alLookup s.channel_bindings c.number with
  | some cb => exact add_permission_set_closed (Permission.new cb.peer) s
  | none =>
      exact add_permission_set_closed (Permission.new c.peer)
        { s with channel_bindings :=
            alInsert s.channel_bindings c.number { c with timerActive := true } }

theorem add_channel_bind_set_closed (c : ChannelBind) (lifetime : Nat)
    (s : Allocation) :
    add_channel_bind c lifetime { s with closed := true }
      = ((add_channel_bind c lifetime s).1,
         { (add_channel_bind c lifetime s).2 with closed := true }) := by
  unfold add_channel_bind
  rw [channel_collision_set_closed]
  by_cases h : channel_collision c s
  · simp [h]
  · simp [h, add_channel_bind_ok_set_closed]

theorem remove_permission_set_closed (a : Addr) (s : Allocation) :
    remove_permission a { s with closed := true }
      = ((remove_permission a s).1,
         { (remove_permission a s).2 with closed := true }) :=
  rfl

theorem remove_channel_bind_set_closed (n : Nat) (s : Allocation) :
    remove_channel_bind n { s with closed := true }
      = ((remove_channel_bind n s).1,
         { (remove_channel_bind n s).2 with closed := true }) :=
  rfl

/-- C1: the claim says every mutator invoked after close() succeeds and leaves
the permissions and channel_bindings maps unchanged. The code has no closed
check in any mutator: on a closed allocation with no permissions,
add_permission installs a fresh permission, changing the permissions map. -/
theorem C1_counterexample :
    (add_permission (Permission.new { ip := 1, port := 10 })
        (closeState (Allocation.new ("t")))).permissions
      ≠ (closeState (Allocation.new ("t"))).permissions := by
  decide

/-- C1 (amended): mutator calls are not gated by the closed flag at all — on an
allocation with closed set they return the very results and map updates they
would produce with closed unset, so after close() they still succeed and still
modify the permissions and channel_bindings maps. -/
theorem C1_mutators_ignore_closed (s : Allocation) (p : Permission) (a : Addr)
    (c : ChannelBind) (lifetime n : Nat) :
    add_permission p { s with closed := true }
        = { add_permission p s with closed := true }
      ∧ add_channel_bind c lifetime { s with closed := true }
        = ((add_channel_bind c lifetime s).1,
           { (add_channel_bind c lifetime s).2 with closed := true })
      ∧ remove_permission a { s with closed := true }
        = ((remove_permission a s).1,
           { (remove_permission a s).2 with closed := true })
      ∧ remove_channel_bind n { s with closed := true }
        = ((remove_channel_bind n s).1,
           { (remove_channel_bind n s).2 with closed := true }) :=
  ⟨add_permission_set_closed p s, add_channel_bind_set_closed c lifetime s,
   remove_permission_set_closed a s, remove_channel_bind_set_closed n s⟩

/-- C9: close() is idempotent — on a not-yet-closed allocation it returns Ok,
sets the closed flag, drops the reset sender (stopping the lifetime timer) and
stops every permission and channel-bind timer; a second close returns Ok and
changes nothing, and n closes (n at least 1) equal one close. -/
theorem C9_close_idempotent (s : Allocation) (n : Nat) (hc : s.closed = false)
    (hn : 1 ≤ n) :
    (close s).1 = TurnResult.ok
      ∧ (close s).2.closed = true
      ∧ (close s).2.resetTx = false
      ∧ (∀ e ∈ (close s).2.permissions, e.2.timerActive = false)
      ∧ (∀ e ∈ (close s).2.channel_bindings, e.2.timerActive = false)
      ∧ close ((close s).2) = (TurnResult.ok, (close s).2)
      ∧ closeState^[n] s = closeState s := by
  refine ⟨rfl, closeState_closed s, ?_, ?_, ?_, ?_, closeState_iterate s n hn⟩
  · simp [close, closeState, hc, stop]
  · intro e he
    simp only [close, closeState, hc, if_false, stop] at he
    simp only [Bool.false_eq_true] at he
    rcases List.mem_map.mp he with ⟨e0, _, rfl⟩
    rfl
  · intro e he
    simp only [close, closeState, hc, if_false, stop] at he
    simp only [Bool.false_eq_true] at he
    rcases List.mem_map.mp he with ⟨e0, _, rfl⟩
    rfl
  · simp [close, closeState_idem]

/-- C10: close() only stops timers, it removes nothing — every permission
present before close is still seen by has_permission afterwards, and
get_channel_addr and get_channel_number answer exactly as before. -/
theorem C10_close_preserves_tables (s : Allocation) (a : Addr)
    (h : has_permission a s = true) :
    has_permission a (closeState s) = true
      ∧ (∀ n, get_channel_addr n (closeState s) = get_channel_addr n s)
      ∧ (∀ b, get_channel_number b (closeState s) = get_channel_number b s) := by
  by_cases hc : s.closed = true
  · rw [closeState_of_closed s hc]
    exact ⟨h, fun _ => rfl, fun _ => rfl⟩
  · have hcf : s.closed = false := by
      cases hb : s.closed
      · rfl
      · exact absurd hb hc
    refine ⟨?_, ?_, ?_⟩
    · unfold has_permission at h ⊢
      simp only [closeState, hcf, Bool.false_eq_true, if_false, stop]
      rw [alLookup_stop_perm]
      cases hl : alLookup s.permissions (addr2ipfingerprint a) with
      | some v => rfl
      | none => rw [hl] at h; simp [Option.isSome] at h
    · intro n
      unfold get_channel_addr
      simp only [closeState, hcf, Bool.false_eq_true, if_false, stop]
      rw [alLookup_stop_bind]
      cases alLookup s.channel_bindings n <;> rfl
    · intro b
      unfold get_channel_number
      simp only [closeState, hcf, Bool.false_eq_true, if_false, stop]
      induction s.channel_bindings with
      | nil => rfl
      | cons e rest ih =>
          by_cases hp : e.2.peer = b
          · simp [List.find?, hp]
          · simp only [List.map_cons]
            simp [List.find?, hp] at ih ⊢
            exact ih

/-- Witness for C9 at a fresh allocation and n = 2. -/
theorem C9_close_idempotent_witness :
    closeState^[2] (Allocation.new ("t")) = closeState (Allocation.new ("t")) :=
  (C9_close_idempotent (Allocation.new ("t")) 2 rfl (by decide)).2.2.2.2.2.2

/-- Witness for C10 at an allocation holding one permission. -/
theorem C10_close_preserves_tables_witness :
    has_permission { ip := 3, port := 4 }
        (closeState
          (add_permission (Permission.new { ip := 3, port := 4 })
            (Allocation.new ("t")))) = true :=
  (C10_close_preserves_tables
      (add_permission (Permission.new { ip := 3, port := 4 })
        (Allocation.new ("t")))
      { ip := 3, port := 4 } (by decide)).1

/-- C2: the claim says the lifetime task exits on a closed control channel
without setting timer_expired; but the store into timer_expired sits after the
select loop and runs on every exit, so the channel-close path sets it too. At
this concrete run the task exits, leaves the registry untouched, and stores
timer_expired — contradicting the claim. -/
theorem C2_counterexample :
    (runTimerTask ("t") { deadline := 5, registry := some ["t"], done := false }
        [TimerEvent.chanClosed]).timerExpiredStored = true
      ∧ (runTimerTask ("t")
          { deadline := 5, registry := some ["t"], done := false }
          [TimerEvent.chanClosed]).finalState.registry = some ["t"]
      ∧ (runTimerTask ("t")
          { deadline := 5, registry := some ["t"], done := false }
          [TimerEvent.chanClosed]).finalState.done = true :=
  ⟨rfl, rfl, rfl⟩

/-- C2 (amended): while still waiting, the lifetime task (a) on timer elapse
removes the five-tuple fingerprint from the registry, exits and stores
timer_expired; (b) on a received lifetime d resets the deadline to now + d and
keeps waiting with timer_expired unset; (c) on a closed control channel exits
without touching the registry, but timer_expired is stored on this exit path
as well, because the store sits after the select loop. -/
theorem C2_timer_task_behaviour (fiveTuple : String) (s0 : TimerTaskState)
    (h : s0.done = false) :
    runTimerTask fiveTuple s0 [TimerEvent.elapsed]
        = { finalState :=
              { s0 with registry := s0.registry.map (fun l => l.erase fiveTuple)
                        done := true }
            timerExpiredStored := true }
      ∧ (∀ now d, runTimerTask fiveTuple s0 [TimerEvent.reset now d]
          = { finalState := { s0 with deadline := now + d }
              timerExpiredStored := false })
      ∧ runTimerTask fiveTuple s0 [TimerEvent.chanClosed]
          = { finalState := { s0 with done := true }
              timerExpiredStored := true } := by
  refine ⟨?_, ?_, ?_⟩
  · simp [runTimerTask, timerTaskStep, h]
  · intro now d
    simp [runTimerTask, timerTaskStep, h]
  · simp [runTimerTask, timerTaskStep, h]

/-- Witness for C2 at a concrete waiting task state. -/
theorem C2_timer_task_behaviour_witness :
    runTimerTask ("t") { deadline := 5, registry := some ["t"], done := false }
        [TimerEvent.elapsed]
      = { finalState := { deadline := 5, registry := some [], done := true }
          timerExpiredStored := true } :=
  (C2_timer_task_behaviour ("t")
    { deadline := 5, registry := some ["t"], done := false } rfl).1

theorem get_channel_addr_some {s : Allocation} {n : Nat} {a : Addr}
    (hwf : ChannelBindingsWF s.channel_bindings)
    (h : get_channel_addr n s = some a) :
    ∃ e ∈ s.channel_bindings, e.2.number = n ∧ e.2.peer = a := by
  unfold get_channel_addr at h
  cases hl : alLookup s.channel_bindings n with
  | none => rw [hl] at h; simp at h
  | some cb =>
      rw [hl] at h
      simp at h
      have hm := mem_of_alLookup_eq_some hl
      exact ⟨(n, cb), hm, hwf.1 (n, cb) hm, h⟩

theorem get_channel_addr_of_mem {s : Allocation} {n : Nat}
    {e : Nat × ChannelBind} (hwf : ChannelBindingsWF s.channel_bindings)
    (hm : e ∈ s.channel_bindings) (hn : e.2.number = n) :
    get_channel_addr n s = some e.2.peer := by
  have hk : e.1 = n := by rw [← hwf.1 e hm, hn]
  have : (n, e.2) ∈ s.channel_bindings := by
    have : e = (n, e.2) := by
      cases e with
      | mk x y => simp_all
    rw [← this]
    exact hm
  unfold get_channel_addr
  rw [alLookup_eq_some_of_mem hwf.2.1 this]
  rfl

theorem get_channel_number_some {s : Allocation} {a : Addr} {n : Nat}
    (h : get_channel_number a s = some n) :
    ∃ e ∈ s.channel_bindings, e.2.peer = a ∧ e.2.number = n := by
  unfold get_channel_number at h
  cases hf : s.channel_bindings.find? (fun e => decide (e.2.peer = a)) with
  | none => rw [hf] at h; simp at h
  | some e =>
      rw [hf] at h
      simp at h
      have hp : e.2.peer = a := by
        have := List.find?_some hf
        simpa using this
      exact ⟨e, List.mem_of_find?_eq_some hf, hp, h⟩

theorem get_channel_number_of_mem {s : Allocation} {a : Addr}
    {e : Nat × ChannelBind} (hwf : ChannelBindingsWF s.channel_bindings)
    (hm : e ∈ s.channel_bindings) (hp : e.2.peer = a) :
    get_channel_number a s = some e.2.number := by
  obtain ⟨b, hb⟩ :=
    find?_exists_of_mem (p := fun e => decide (e.2.peer = a)) hm (by simp [hp])
  have hbp : b.2.peer = a := by
    have := List.find?_some hb
    simpa using this
  have hbm : b ∈ s.channel_bindings := List.mem_of_find?_eq_some hb
  have hbe : b = e := by
    by_contra hne
    exact (hwf.2.2.forall (fun x y hxy => (Ne.symm hxy)) hbm hm hne)
      (hbp.trans hp.symm)
  unfold get_channel_number
  rw [hb, hbe]
  rfl

/-- C5: add_channel_bind returns SameChannelDifferentPeer exactly when an
existing bind carries this number with another peer or this peer with another
number, and on that error the allocation — both tables included — is left
completely unchanged. -/
theorem C5_same_channel_different_peer (s : Allocation) (c : ChannelBind)
    (lifetime : Nat) (hwf : ChannelBindingsWF s.channel_bindings) :
    ((add_channel_bind c lifetime s).1
        = TurnResult.err TurnError.sameChannelDifferentPeer
      ↔ (∃ e ∈ s.channel_bindings, e.2.number = c.number ∧ e.2.peer ≠ c.peer)
        ∨ (∃ e ∈ s.channel_bindings, e.2.peer = c.peer ∧ e.2.number ≠ c.number))
      ∧ ((add_channel_bind c lifetime s).1
          = TurnResult.err TurnError.sameChannelDifferentPeer →
        (add_channel_bind c lifetime s).2 = s) := by
  constructor
  · constructor
    · intro herr
      have hcol : channel_collision c s = true := by
        by_contra hcf
        simp [add_channel_bind, hcf] at herr
      unfold channel_collision at hcol
      rcases Bool.or_eq_true_iff.mp hcol with h1 | h1
      · cases hga : get_channel_addr c.number s with
        | none => rw [hga] at h1; simp at h1
        | some addr =>
            rw [hga] at h1
            simp at h1
            obtain ⟨e, hm, hn, hp⟩ := get_channel_addr_some hwf hga
            exact Or.inl ⟨e, hm, hn, hp ▸ h1⟩
      · cases hgn : get_channel_number c.peer s with
        | none => rw [hgn] at h1; simp at h1
        | some number =>
            rw [hgn] at h1
            simp at h1
            obtain ⟨e, hm, hp, hn⟩ := get_channel_number_some hgn
            exact Or.inr ⟨e, hm, hp, hn ▸ h1⟩
    · intro hcase
      have hcol : channel_collision c s = true := by
        unfold channel_collision
        rcases hcase with ⟨e, hm, hn, hp⟩ | ⟨e, hm, hp, hn⟩
        · rw [get_channel_addr_of_mem hwf hm hn]
          simp [hp]
        · rw [get_channel_number_of_mem hwf hm hp]
          cases hga : get_channel_addr c.number s with
          | none => simp [hn]
          | some addr =>
              by_cases hap : addr = c.peer
              · obtain ⟨e2, hm2, hn2, hp2⟩ := get_channel_addr_some hwf hga
                have hne : e2 ≠ e := by
                  intro hee
                  rw [hee] at hn2
                  exact hn (hn2)
                have := hwf.2.2.forall (fun x y hxy => (Ne.symm hxy)) hm2 hm
                  hne
                exact absurd (by rw [hp2, hap, hp]) this
              · simp [hap]
      simp [add_channel_bind, hcol]
  · intro herr
    have hcol : channel_collision c s = true := by
      by_contra hcf
      simp [add_channel_bind, hcf] at herr
    simp [add_channel_bind, hcol]

/-- Witness for C5: a collision (same number 0x4001, different peer) is
rejected with SameChannelDifferentPeer and the table keeps the existing bind. -/
theorem C5_same_channel_different_peer_witness :
    (add_channel_bind (ChannelBind.new 16385 { ip := 2, port := 20 }) 600
        { Allocation.new ("t") with
          channel_bindings :=
            [(16385, { number := 16385, peer := { ip := 1, port := 10 }
                       timerActive := true })] }).1
      = TurnResult.err TurnError.sameChannelDifferentPeer := by
  have h := C5_same_channel_different_peer
    { Allocation.new ("t") with
      channel_bindings :=
        [(16385, { number := 16385, peer := { ip := 1, port := 10 }
                   timerActive := true })] }
    (ChannelBind.new 16385 { ip := 2, port := 20 }) 600
    (by constructor
        · intro e he
          simp at he
          rw [he]
        · exact ⟨by simp, by simp⟩)
  exact h.1.mpr
    (Or.inl ⟨(16385, { number := 16385, peer := { ip := 1, port := 10 }
                       timerActive := true }),
      by simp, rfl, by decide⟩)

/-- C6: whenever add_channel_bind returns Ok — fresh install or refresh — a
permission for the peer's ip is present immediately afterwards. -/
theorem C6_permission_on_bind (s : Allocation) (c : ChannelBind)
    (lifetime : Nat)
    (hok : (add_channel_bind c lifetime s).1 = TurnResult.ok) :
    has_permission c.peer (add_channel_bind c lifetime s).2 = true := by
  have hcol : channel_collision c s = false := by
    by_contra hc
    simp at hc
    simp [add_channel_bind, hc] at hok
  have hperm : ∀ p s2, has_permission p.addr (add_permission p s2) = true := by
    intro p s2
    unfold has_permission add_permission
    cases hl : alLookup s2.permissions (addr2ipfingerprint p.addr) with
    | some v => simp [hl]
    | none =>
        simp only [hl]
        rw [alLookup_alInsert_self]
        rfl
  simp only [add_channel_bind, hcol, Bool.false_eq_true, if_false]
  unfold add_channel_bind_ok
  cases hl : alLookup s.channel_bindings c.number with
  | some cb =>
      have hpeer : cb.peer = c.peer := by
        have hga : get_channel_addr c.number s = some cb.peer := by
          unfold get_channel_addr
          rw [hl]
          rfl
        unfold channel_collision at hcol
        rw [hga] at hcol
        rcases Bool.or_eq_false_iff.mp hcol with ⟨h1, _⟩
        simpa using h1
      rw [← hpeer]
      exact hperm (Permission.new cb.peer) s
  | none =>
      exact hperm (Permission.new c.peer) _

/-- Witness for C6: a fresh bind on an empty allocation installs the peer's
permission. -/
theorem C6_permission_on_bind_witness :
    has_permission { ip := 1, port := 10 }
        (add_channel_bind (ChannelBind.new 16385 { ip := 1, port := 10 }) 600
          (Allocation.new ("t"))).2 = true :=
  C6_permission_on_bind (Allocation.new ("t"))
    (ChannelBind.new 16385 { ip := 1, port := 10 }) 600 rfl

end Turn

namespace Ice

theorem selected_send_binding_request (d : Addr) (u : Bool) (s : AgentState) :
    (send_binding_request d u s).selectedPair = s.selectedPair :=
  rfl

theorem selected_ping_candidate (lc rc : Candidate) (s : AgentState) :
    (ping_candidate lc rc s).1.selectedPair = s.selectedPair :=
  rfl

theorem selected_nominate_pair (s : AgentState) :
    (nominate_pair s).1.selectedPair = s.selectedPair := by
  unfold nominate_pair
  cases s.nominatedPair <;> rfl

theorem ping_all_fold_selected (l : List PairRec)
    (acc : AgentState × List Action) :
    (l.foldl
        (fun acc p =>
          let next := ping_candidate p.localCand p.remoteCand acc.1
          (next.1, acc.2 ++ next.2))
        acc).1.selectedPair = acc.1.selectedPair := by
  induction l generalizing acc with
  | nil => rfl
  | cons p rest ih =>
      rw [List.foldl_cons, ih]
      rfl

theorem selected_ping_all_candidates (s : AgentState) :
    (ping_all_candidates s).1.selectedPair = s.selectedPair :=
  ping_all_fold_selected s.checklist (s, [])

theorem selected_controlling_contact (cfg : AgentConfig) (now : Nat)
    (validateOk : Bool) (s : AgentState) (k : Candidate × Candidate)
    (h : s.selectedPair = some k) :
    (controlling_contact_candidates cfg now validateOk s).1.selectedPair
      = some k := by
  unfold controlling_contact_candidates
  rw [h]
  simp only [Option.isSome_some, if_true]
  split <;> exact h

theorem selected_controlled_contact (cfg : AgentConfig) (validateOk : Bool)
    (s : AgentState) (k : Candidate × Candidate)
    (h : s.selectedPair = some k) :
    (controlled_contact_candidates cfg validateOk s).1.selectedPair
      = some k := by
  unfold controlled_contact_candidates
  rw [h]
  by_cases hl : cfg.lite
  · simp only [hl, if_true]
    exact h
  · simp only [hl, Bool.false_eq_true, if_false, Option.isSome_some, if_true]
    split <;> exact h

theorem selected_controlling_success (tid : Nat) (lc rc : Candidate)
    (remoteAddr : Addr) (s : AgentState) (k : Candidate × Candidate)
    (h : s.selectedPair = some k) :
    (controlling_handle_success_response tid lc rc remoteAddr s).1.selectedPair
      = some k := by
  unfold controlling_handle_success_response
  cases hcons : (consume tid s.pendingRequests).1 with
  | none => exact h
  | some pendingRequest =>
      simp only
      split
      · exact h
      · cases hf : find_pair lc rc
            ({ s with pendingRequests := (consume tid s.pendingRequests).2 } :
              AgentState) with
        | none =>
            simp only [hf]
            exact h
        | some p =>
            simp only [hf]
            split
            · next hcond =>
                rw [show ({ s with pendingRequests :=
                      (consume tid s.pendingRequests).2 } :
                    AgentState).selectedPair = some k from h] at hcond
                simp at hcond
            · exact h

theorem selected_controlled_success (tid : Nat) (lc rc : Candidate)
    (remoteAddr : Addr) (s : AgentState) (k : Candidate × Candidate)
    (h : s.selectedPair = some k) :
    (controlled_handle_success_response tid lc rc remoteAddr s).1.selectedPair
      = some k := by
  unfold controlled_handle_success_response
  cases hcons : (consume tid s.pendingRequests).1 with
  | none => exact h
  | some pendingRequest =>
      simp only
      split
      · exact h
      · cases hf : find_pair lc rc
            ({ s with pendingRequests := (consume tid s.pendingRequests).2 } :
              AgentState) with
        | none =>
            simp only [hf]
            exact h
        | some p =>
            simp only [hf]
            exact h

theorem selected_controlling_binding (cfg : AgentConfig) (now : Nat)
    (lc rc : Candidate) (s : AgentState) (k : Candidate × Candidate)
    (h : s.selectedPair = some k) :
    (controlling_handle_binding_request cfg now lc rc s).1.selectedPair
      = some k := by
  unfold controlling_handle_binding_request
  cases hf : find_pair lc rc s with
  | none => simpa [add_pair] using h
  | some p =>
      simp only
      split
      · cases hb : get_best_available_candidate_pair true s with
        | none => simpa using h
        | some bestPair =>
            simp only
            split
            · rw [selected_nominate_pair]
              simpa using h
            · simpa using h
      · simpa using h

theorem selected_controlled_binding (useCandidate : Bool) (lc rc : Candidate)
    (s : AgentState) (k : Candidate × Candidate)
    (h : s.selectedPair = some k) :
    (controlled_handle_binding_request useCandidate lc rc s).1.selectedPair
      = some k := by
  have core : ∀ s0 : AgentState, s0.selectedPair = some k →
      (controlled_handle_binding_known useCandidate lc rc s0).1.selectedPair
        = some k := by
    intro s0 h0
    unfold controlled_handle_binding_known
    cases hf : find_pair lc rc s0 with
    | none =>
        simp only [hf]
        exact h0
    | some p =>
        simp only [hf]
        split
        · split
          · split
            · next hcond =>
                rw [h0] at hcond
                simp at hcond
            · exact h0
          · exact h0
        · exact h0
  unfold controlled_handle_binding_request
  apply core
  split
  · exact h
  · exact h

theorem selected_apply_op (cfg : AgentConfig) (op : SelOp) (s : AgentState)
    (k : Candidate × Candidate) (h : s.selectedPair = some k) :
    (apply_op cfg s op).selectedPair = some k := by
  cases op with
  | controllingStart now => exact h
  | controlledStart => exact h
  | controllingContact now validateOk =>
      exact selected_controlling_contact cfg now validateOk s k h
  | controlledContact validateOk =>
      exact selected_controlled_contact cfg validateOk s k h
  | controllingPing lc rc => exact h
  | controlledPing lc rc => exact h
  | controllingSuccess tid lc rc remoteAddr =>
      exact selected_controlling_success tid lc rc remoteAddr s k h
  | controlledSuccess tid lc rc remoteAddr =>
      exact selected_controlled_success tid lc rc remoteAddr s k h
  | controllingBinding now lc rc =>
      exact selected_controlling_binding cfg now lc rc s k h
  | controlledBinding useCandidate lc rc =>
      exact selected_controlled_binding useCandidate lc rc s k h

/-- C3: once a pair is selected it is never replaced — across any sequence of
selector operations, in either role, a selected pair stays exactly the pair it
was, so at most one pair is ever selected and no operation overwrites it (both
promotion sites run only when no pair is selected). -/
theorem C3_selected_pair_stable (cfg : AgentConfig) (ops : List SelOp)
    (s : AgentState) (k : Candidate × Candidate)
    (h : s.selectedPair = some k) :
    (run_ops cfg s ops).selectedPair = some k := by
  induction ops generalizing s with
  | nil => exact h
  | cons op rest ih =>
      exact ih (apply_op cfg s op) (selected_apply_op cfg op s k h)

/-- Witness for C3: with a pair already selected, a USE-CANDIDATE binding
request on a Succeeded pair and a contact tick leave the selection as it is. -/
theorem C3_selected_pair_stable_witness :
    (run_ops
        { hostAcceptanceMinWait := 0, srflxAcceptanceMinWait := 0
          prflxAcceptanceMinWait := 0, relayAcceptanceMinWait := 0
          lite := false }
        { checklist :=
            [{ localCand :=
                 { ctype := CandidateType.host, priority := 5
                   addr := { ip := 1, port := 1 } }
               remoteCand :=
                 { ctype := CandidateType.host, priority := 5
                   addr := { ip := 2, port := 2 } }
               state := PairState.succeeded, nominated := false }]
          selectedPair :=
            some ({ ctype := CandidateType.host, priority := 5
                    addr := { ip := 1, port := 1 } },
                  { ctype := CandidateType.host, priority := 5
                    addr := { ip := 2, port := 2 } })
          nominatedPair := none, pendingRequests := [], nextTid := 0
          startTime := 0 }
        [SelOp.controlledBinding true
            { ctype := CandidateType.host, priority := 5
              addr := { ip := 1, port := 1 } }
            { ctype := CandidateType.host, priority := 5
              addr := { ip := 2, port := 2 } },
         SelOp.controllingContact 3 true]).selectedPair
      = some ({ ctype := CandidateType.host, priority := 5
                addr := { ip := 1, port := 1 } },
              { ctype := CandidateType.host, priority := 5
                addr := { ip := 2, port := 2 } }) :=
  C3_selected_pair_stable _ _ _ _ rfl

/-- C4: in either role, a success response whose transaction is found but whose
source differs from the pending request's destination is discarded: the only
state change is the removal of the consumed transaction — the checklist,
every pair state, and the selected pair are untouched, and nothing is sent. -/
theorem C4_symmetric_nat_discard (tid : Nat) (lc rc : Candidate)
    (remoteAddr : Addr) (s : AgentState) (pr : PendingRequest)
    (hc : (consume tid s.pendingRequests).1 = some pr)
    (hd : pr.destination ≠ remoteAddr) :
    controlling_handle_success_response tid lc rc remoteAddr s
        = ({ s with pendingRequests := (consume tid s.pendingRequests).2 }, [])
      ∧ controlled_handle_success_response tid lc rc remoteAddr s
        = ({ s with pendingRequests := (consume tid s.pendingRequests).2 },
           []) := by
  constructor
  · unfold controlling_handle_success_response
    simp only [hc]
    rw [if_pos hd]
  · unfold controlled_handle_success_response
    simp only [hc]
    rw [if_pos hd]

/-- Witness for C4 at a pending transaction whose answer arrives from another
port. -/
theorem C4_symmetric_nat_discard_witness :
    controlling_handle_success_response 7
        { ctype := CandidateType.host, priority := 5
          addr := { ip := 1, port := 1 } }
        { ctype := CandidateType.host, priority := 5
          addr := { ip := 2, port := 2 } }
        { ip := 9, port := 8 }
        { checklist := [], selectedPair := none, nominatedPair := none
          pendingRequests :=
            [{ transactionId := 7, destination := { ip := 9, port := 9 }
               isUseCandidate := true }]
          nextTid := 1, startTime := 0 }
      = ({ checklist := [], selectedPair := none, nominatedPair := none
           pendingRequests := [], nextTid := 1, startTime := 0 }, []) :=
  (C4_symmetric_nat_discard 7
    { ctype := CandidateType.host, priority := 5
      addr := { ip := 1, port := 1 } }
    { ctype := CandidateType.host, priority := 5
      addr := { ip := 2, port := 2 } }
    { ip := 9, port := 8 }
    { checklist := [], selectedPair := none, nominatedPair := none
      pendingRequests :=
        [{ transactionId := 7, destination := { ip := 9, port := 9 }
           isUseCandidate := true }]
      nextTid := 1, startTime := 0 }
    { transactionId := 7, destination := { ip := 9, port := 9 }
      isUseCandidate := true } rfl (by decide)).1

theorem ping_all_fold_actions_mono (l : List PairRec)
    (acc : AgentState × List Action) (a : Action) (ha : a ∈ acc.2) :
    a ∈ (l.foldl
        (fun acc p =>
          let next := ping_candidate p.localCand p.remoteCand acc.1
          (next.1, acc.2 ++ next.2))
        acc).2 := by
  induction l generalizing acc with
  | nil => exact ha
  | cons p rest ih =>
      rw [List.foldl_cons]
      exact ih _ (List.mem_append.mpr (Or.inl ha))

theorem ping_all_fold_actions_mem (l : List PairRec)
    (acc : AgentState × List Action) (q : PairRec) (hq : q ∈ l) :
    Action.bindingRequest q.localCand q.remoteCand
      ∈ (l.foldl
          (fun acc p =>
            let next := ping_candidate p.localCand p.remoteCand acc.1
            (next.1, acc.2 ++ next.2))
          acc).2 := by
  induction l generalizing acc with
  | nil => cases hq
  | cons p rest ih =>
      rw [List.foldl_cons]
      rcases List.mem_cons.mp hq with h1 | h2
      · rw [h1]
        exact ping_all_fold_actions_mono rest _ _
          (List.mem_append.mpr (Or.inr (List.mem_singleton.mpr rfl)))
      · exact ih _ h2

theorem ping_all_candidates_mem (s : AgentState) (q : PairRec)
    (hq : q ∈ s.checklist) :
    Action.bindingRequest q.localCand q.remoteCand
      ∈ (ping_all_candidates s).2 :=
  ping_all_fold_actions_mem s.checklist (s, []) q hq

/-- C7: the controlling contact_candidates follows the exact case order of the
source — (1) with a selected pair it only validates and emits a keepalive when
the pair is still valid; (2) else with a recorded nominated pair it sends the
nominating request for it; (3) else when the best valid pair exists and both
endpoints are nominatable it sets that pair's nominated flag, records it as
nominated_pair and sends the nominating request; (4) otherwise it sends a
non-nominating binding request to every pair. -/
theorem C7_controlling_contact_cases (cfg : AgentConfig) (now : Nat)
    (validateOk : Bool) (s : AgentState) :
    (s.selectedPair.isSome = true →
      controlling_contact_candidates cfg now validateOk s
        = (s, if validateOk then [Action.keepalive] else []))
      ∧ (∀ k, s.selectedPair = none → s.nominatedPair = some k →
          controlling_contact_candidates cfg now validateOk s
            = (send_binding_request k.2.addr true s,
               [Action.nominatingRequest k.1 k.2]))
      ∧ (∀ p, s.selectedPair = none → s.nominatedPair = none →
          get_best_valid_candidate_pair true s = some p →
          is_nominatable cfg now s.startTime p.localCand = true →
          is_nominatable cfg now s.startTime p.remoteCand = true →
          controlling_contact_candidates cfg now validateOk s
            = (send_binding_request p.remoteCand.addr true
                 { set_nominated_flag p.localCand p.remoteCand s with
                   nominatedPair := some (p.localCand, p.remoteCand) },
               [Action.nominatingRequest p.localCand p.remoteCand]))
      ∧ (s.selectedPair = none → s.nominatedPair = none →
          (∀ p, get_best_valid_candidate_pair true s = some p →
            ¬(is_nominatable cfg now s.startTime p.localCand = true ∧
              is_nominatable cfg now s.startTime p.remoteCand = true)) →
          controlling_contact_candidates cfg now validateOk s
              = ping_all_candidates s
            ∧ ∀ q ∈ s.checklist,
                Action.bindingRequest q.localCand q.remoteCand
                  ∈ (controlling_contact_candidates cfg now validateOk s).2) := by
  refine ⟨?_, ?_, ?_, ?_⟩
  · intro hsel
    unfold controlling_contact_candidates
    rw [hsel]
    simp only [if_true]
    cases validateOk <;> simp
  · intro k h1 h2
    unfold controlling_contact_candidates
    rw [h1, h2]
    simp [nominate_pair, h2]
  · intro p h1 h2 h3 h4 h5
    unfold controlling_contact_candidates
    rw [h1, h2]
    simp only [Option.isSome_none, Bool.false_eq_true, if_false, h3, h4, h5,
      Bool.and_self, if_true]
    simp [nominate_pair]
  · intro h1 h2 h3
    have hmain : controlling_contact_candidates cfg now validateOk s
        = ping_all_candidates s := by
      unfold controlling_contact_candidates
      rw [h1, h2]
      simp only [Option.isSome_none, Bool.false_eq_true, if_false]
      cases hbv : get_best_valid_candidate_pair true s with
      | none => simp
      | some p =>
          have := h3 p hbv
          have hand : (is_nominatable cfg now s.startTime p.localCand &&
              is_nominatable cfg now s.startTime p.remoteCand) = false := by
            cases hA : is_nominatable cfg now s.startTime p.localCand
            · rfl
            · cases hB : is_nominatable cfg now s.startTime p.remoteCand
              · rfl
              · exact absurd ⟨hA, hB⟩ this
          simp [hand]
    exact ⟨hmain, fun q hq => hmain ▸ ping_all_candidates_mem s q hq⟩

/-- Witness for C7, case 3: a lone Succeeded host pair with zero acceptance
wait is nominated on the tick. -/
theorem C7_controlling_contact_cases_witness :
    controlling_contact_candidates
        { hostAcceptanceMinWait := 0, srflxAcceptanceMinWait := 0
          prflxAcceptanceMinWait := 0, relayAcceptanceMinWait := 0
          lite := false } 3 true
        { checklist :=
            [{ localCand :=
                 { ctype := CandidateType.host, priority := 5
                   addr := { ip := 1, port := 1 } }
               remoteCand :=
                 { ctype := CandidateType.host, priority := 5
                   addr := { ip := 2, port := 2 } }
               state := PairState.succeeded, nominated := false }]
          selectedPair := none, nominatedPair := none, pendingRequests := []
          nextTid := 0, startTime := 0 }
      = (send_binding_request { ip := 2, port := 2 } true
           { set_nominated_flag
               { ctype := CandidateType.host, priority := 5
                 addr := { ip := 1, port := 1 } }
               { ctype := CandidateType.host, priority := 5
                 addr := { ip := 2, port := 2 } }
               { checklist :=
                   [{ localCand :=
                        { ctype := CandidateType.host, priority := 5
                          addr := { ip := 1, port := 1 } }
                      remoteCand :=
                        { ctype := CandidateType.host, priority := 5
                          addr := { ip := 2, port := 2 } }
                      state := PairState.succeeded, nominated := false }]
                 selectedPair := none, nominatedPair := none
                 pendingRequests := [], nextTid := 0, startTime := 0 } with
             nominatedPair :=
               some ({ ctype := CandidateType.host, priority := 5
                       addr := { ip := 1, port := 1 } },
                     { ctype := CandidateType.host, priority := 5
                       addr := { ip := 2, port := 2 } }) },
         [Action.nominatingRequest
            { ctype := CandidateType.host, priority := 5
              addr := { ip := 1, port := 1 } }
            { ctype := CandidateType.host, priority := 5
              addr := { ip := 2, port := 2 } }]) :=
  ((C7_controlling_contact_cases _ 3 true _).2.2.1
    { localCand :=
        { ctype := CandidateType.host, priority := 5
          addr := { ip := 1, port := 1 } }
      remoteCand :=
        { ctype := CandidateType.host, priority := 5
          addr := { ip := 2, port := 2 } }
      state := PairState.succeeded, nominated := false }
    rfl rfl (by decide) (by decide) (by decide))

/-- C8: on a USE-CANDIDATE binding request for a known pair, the controlled
selector selects the pair and replies with a Binding Success exactly when its
state is Succeeded and no pair is selected; when the pair's state is not
Succeeded it does not select and instead issues a triggered-check ping to the
pair. -/
theorem C8_use_candidate_handling (lc rc : Candidate) (s : AgentState)
    (p : PairRec) (hf : find_pair lc rc s = some p) :
    (p.state = PairState.succeeded → s.selectedPair = none →
      controlled_handle_binding_request true lc rc s
        = (set_selected_pair (lc, rc) s, [Action.bindingSuccess lc rc]))
      ∧ (p.state ≠ PairState.succeeded →
          controlled_handle_binding_request true lc rc s
              = ping_candidate lc rc s
            ∧ (controlled_handle_binding_request true lc rc s).1.selectedPair
                = s.selectedPair) := by
  have hreq : controlled_handle_binding_request true lc rc s
      = controlled_handle_binding_known true lc rc s := by
    unfold controlled_handle_binding_request
    rw [hf]
    rfl
  constructor
  · intro hst hsel
    rw [hreq]
    unfold controlled_handle_binding_known
    rw [hf]
    simp [hst, hsel]
  · intro hst
    have hping : controlled_handle_binding_request true lc rc s
        = ping_candidate lc rc s := by
      rw [hreq]
      unfold controlled_handle_binding_known
      rw [hf]
      simp [hst]
    exact ⟨hping, by rw [hping]; rfl⟩

/-- Witness for C8 at a known Succeeded pair with no selected pair: the pair
gets selected and a Binding Success is emitted. -/
theorem C8_use_candidate_handling_witness :
    controlled_handle_binding_request true
        { ctype := CandidateType.host, priority := 5
          addr := { ip := 1, port := 1 } }
        { ctype := CandidateType.host, priority := 5
          addr := { ip := 2, port := 2 } }
        { checklist :=
            [{ localCand :=
                 { ctype := CandidateType.host, priority := 5
                   addr := { ip := 1, port := 1 } }
               remoteCand :=
                 { ctype := CandidateType.host, priority := 5
                   addr := { ip := 2, port := 2 } }
               state := PairState.succeeded, nominated := false }]
          selectedPair := none, nominatedPair := none, pendingRequests := []
          nextTid := 0, startTime := 0 }
      = (set_selected_pair
           ({ ctype := CandidateType.host, priority := 5
              addr := { ip := 1, port := 1 } },
            { ctype := CandidateType.host, priority := 5
              addr := { ip := 2, port := 2 } })
           { checklist :=
               [{ localCand :=
                    { ctype := CandidateType.host, priority := 5
                      addr := { ip := 1, port := 1 } }
                  remoteCand :=
                    { ctype := CandidateType.host, priority := 5
                      addr := { ip := 2, port := 2 } }
                  state := PairState.succeeded, nominated := false }]
             selectedPair := none, nominatedPair := none, pendingRequests := []
             nextTid := 0, startTime := 0 },
         [Action.bindingSuccess
            { ctype := CandidateType.host, priority := 5
              addr := { ip := 1, port := 1 } }
            { ctype := CandidateType.host, priority := 5
              addr := { ip := 2, port := 2 } }]) :=
  (C8_use_candidate_handling
    { ctype := CandidateType.host, priority := 5
      addr := { ip := 1, port := 1 } }
    { ctype := CandidateType.host, priority := 5
      addr := { ip := 2, port := 2 } }
    { checklist :=
        [{ localCand :=
             { ctype := CandidateType.host, priority := 5
               addr := { ip := 1, port := 1 } }
           remoteCand :=
             { ctype := CandidateType.host, priority := 5
               addr := { ip := 2, port := 2 } }
           state := PairState.succeeded, nominated := false }]
      selectedPair := none, nominatedPair := none, pendingRequests := []
      nextTid := 0, startTime := 0 }
    { localCand :=
        { ctype := CandidateType.host, priority := 5
          addr := { ip := 1, port := 1 } }
      remoteCand :=
        { ctype := CandidateType.host, priority := 5
          addr := { ip := 2, port := 2 } }
      state := PairState.succeeded, nominated := false }
    rfl).1 rfl rfl

end Ice
